import Mathlib

/-!
Verification of the Founder Execution Engine core logic.

The scoring engine (`judge_day`, `level_from_xp`, `clamp`) is embedded from
`src/engine.py` (identical logic appears in `src/_legacy/backend/rules.py`).
Python integers are modelled as `Int`, the floating-point `impacts_sum` as an
exact rational `ℚ`, and Python's built-in `round` (banker's rounding,
round-half-to-even) as `pyRound`.  Python's floor division `//` is `Int.fdiv`.
-/

namespace FounderEngine

/-- Floor of a rational, computed from its numerator and denominator with
floor division.  Matches `Int.floor` on `ℚ`. -/
def ratFloor (q : ℚ) : ℤ := Int.fdiv q.num q.den

/-- Python's built-in `round` on an exact rational: round to the nearest
integer, ties going to the even integer (banker's rounding). -/
def pyRound (q : ℚ) : ℤ :=
  let f := ratFloor q
  let frac := q - (f : ℚ)
  if frac < 1 / 2 then f
  else if 1 / 2 < frac then f + 1
  else if f % 2 = 0 then f else f + 1

/-- Embeds `clamp` from `src/engine.py`: `max(lo, min(hi, v))`. -/
def clamp (v lo hi : ℤ) : ℤ := max lo (min hi v)

/-- Embeds `level_from_xp` from `src/engine.py`:
`clamp(1 + (xp // 250), 1, 10)`. -/
def level_from_xp (xp : ℤ) : ℤ := clamp (1 + Int.fdiv xp 250) 1 10

/-- The `Judgement` dataclass of `src/engine.py`. -/
structure Judgement where
  xp_delta : ℤ
  penalty : ℤ
  new_xp : ℤ
  new_level : ℤ
  new_streak : ℤ
  new_debt : ℤ
  new_difficulty : ℤ
  verdict : String
deriving Repr, DecidableEq

def verdictNothing : String :=
  "You executed nothing. That\x27s self-deception. Penalty applied."

def verdictHard : String :=
  "You executed hard. Keep going. Next level demands more."

def verdictWork : String :=
  "You did the work. No excuses. No detours."

def verdictAvoided : String :=
  "You avoided the main goal. You pay now and later. Fix it."

def verdictBailed : String :=
  "You did something — then you bailed on the rest. Not enough."

/-- Embeds `judge_day` from `src/engine.py`, line for line. -/
def judge_day (current_xp current_streak current_debt current_difficulty
    completed missed : ℤ) (impacts_sum : ℚ) : Judgement :=
  let base_xp := pyRound (20 * (completed : ℚ) + 10 * impacts_sum
    + 5 * (current_difficulty : ℚ))
  let penalty := 15 * missed
  let new_streak := if missed = 0 ∧ completed > 0 then current_streak + 1 else 0
  let streak_bonus : ℤ := if new_streak ≥ 3 then 5 else 0
  let xp_delta := base_xp + streak_bonus - penalty
  let new_xp := max 0 (current_xp + xp_delta)
  let new_debt := current_debt + missed
  let diff :=
    if missed ≥ 2 then current_difficulty + 1
    else if new_streak ≥ 5 then current_difficulty + 1
    else if missed = 0 ∧ completed ≥ 4 then current_difficulty + 1
    else current_difficulty
  let new_difficulty := clamp diff 1 5
  let new_level := level_from_xp new_xp
  let verdict :=
    if completed = 0 ∧ missed > 0 then verdictNothing
    else if missed = 0 ∧ completed ≥ 4 then verdictHard
    else if missed = 0 ∧ completed > 0 then verdictWork
    else if missed ≥ 2 then verdictAvoided
    else verdictBailed
  ⟨xp_delta, penalty, new_xp, new_level, new_streak, new_debt, new_difficulty,
    verdict⟩

/-- The streak produced by `judge_day`, as a standalone expression. -/
def streakAfter (current_streak completed missed : ℤ) : ℤ :=
  if missed = 0 ∧ completed > 0 then current_streak + 1 else 0

lemma clamp_lower (v lo hi : ℤ) (h : lo ≤ hi) : lo ≤ clamp v lo hi := by
  simp only [clamp]
  omega

lemma clamp_upper (v lo hi : ℤ) (h : lo ≤ hi) : clamp v lo hi ≤ hi := by
  simp only [clamp]
  omega

/-- C1: for every input in the documented domain, `judge_day` returns exactly
`penalty = 15*missed`, `xp_delta = base_xp + streak_bonus - penalty` with
`base_xp = round(20*completed + 10*impacts_sum + 5*current_difficulty)` and
`streak_bonus = 5` iff the new streak is at least 3, and
`new_xp = max(0, current_xp + xp_delta)`. -/
theorem judge_day_xp_formulas (cx cs cd cdf comp miss : ℤ) (w : ℚ)
    (hx : 0 ≤ cx) (hs : 0 ≤ cs) (hd1 : 1 ≤ cdf) (hd2 : cdf ≤ 5)
    (hc : 0 ≤ comp) (hm : 0 ≤ miss) (hw : 0 ≤ w) :
    (judge_day cx cs cd cdf comp miss w).penalty = 15 * miss ∧
    (judge_day cx cs cd cdf comp miss w).xp_delta =
      pyRound (20 * (comp : ℚ) + 10 * w + 5 * (cdf : ℚ))
        + (if streakAfter cs comp miss ≥ 3 then 5 else 0) - 15 * miss ∧
    (judge_day cx cs cd cdf comp miss w).new_xp =
      max 0 (cx + (judge_day cx cs cd cdf comp miss w).xp_delta) := by
  exact ⟨rfl, rfl, rfl⟩

/-- Closed instance of C1 at a concrete input. -/
theorem judge_day_xp_formulas_witness :
    (judge_day 0 0 0 1 4 0 (11 / 2)).penalty = 15 * 0 ∧
    (judge_day 0 0 0 1 4 0 (11 / 2)).xp_delta =
      pyRound (20 * ((4 : ℤ) : ℚ) + 10 * (11 / 2) + 5 * ((1 : ℤ) : ℚ))
        + (if streakAfter 0 4 0 ≥ 3 then 5 else 0) - 15 * 0 ∧
    (judge_day 0 0 0 1 4 0 (11 / 2)).new_xp =
      max 0 (0 + (judge_day 0 0 0 1 4 0 (11 / 2)).xp_delta) :=
  judge_day_xp_formulas 0 0 0 1 4 0 (11 / 2) (by decide) (by decide)
    (by decide) (by decide) (by decide) (by decide) (by norm_num)

/-- C3: the verdict is selected by the ordered predicate chain, first match
winning, and in particular `completed = 0 ∧ missed = 0` yields the catch-all
verdict rather than the "executed nothing" one. -/
theorem judge_day_verdict_chain (cx cs cd cdf comp miss : ℤ) (w : ℚ) :
    (judge_day cx cs cd cdf comp miss w).verdict =
      (if comp = 0 ∧ miss > 0 then verdictNothing
       else if miss = 0 ∧ comp ≥ 4 then verdictHard
       else if miss = 0 ∧ comp > 0 then verdictWork
       else if miss ≥ 2 then verdictAvoided
       else verdictBailed) ∧
    (comp = 0 ∧ miss = 0 →
      (judge_day cx cs cd cdf comp miss w).verdict = verdictBailed) := by
  refine ⟨rfl, ?_⟩
  rintro ⟨hc, hm⟩
  subst hc hm
  rfl

/-- Closed instance of C3 at the edge case `completed = 0`, `missed = 0`. -/
theorem judge_day_verdict_chain_witness :
    (0 : ℤ) = 0 ∧ (0 : ℤ) = 0 ∧
    (judge_day 7 1 2 3 0 0 0).verdict = verdictBailed :=
  ⟨rfl, rfl, (judge_day_verdict_chain 7 1 2 3 0 0 0).2 ⟨rfl, rfl⟩⟩

/-- C4: `new_difficulty` follows the ordered if/elif chain clamped to [1,5]
and `new_level = clamp(1 + new_xp // 250, 1, 10)`; both stay in range. -/
theorem judge_day_difficulty_level (cx cs cd cdf comp miss : ℤ) (w : ℚ)
    (hx : 0 ≤ cx) (hs : 0 ≤ cs) (hd1 : 1 ≤ cdf) (hd2 : cdf ≤ 5)
    (hc : 0 ≤ comp) (hm : 0 ≤ miss) (hw : 0 ≤ w) :
    (judge_day cx cs cd cdf comp miss w).new_difficulty =
      clamp (if miss ≥ 2 then cdf + 1
             else if streakAfter cs comp miss ≥ 5 then cdf + 1
             else if miss = 0 ∧ comp ≥ 4 then cdf + 1
             else cdf) 1 5 ∧
    1 ≤ (judge_day cx cs cd cdf comp miss w).new_difficulty ∧
    (judge_day cx cs cd cdf comp miss w).new_difficulty ≤ 5 ∧
    (judge_day cx cs cd cdf comp miss w).new_level =
      clamp (1 + Int.fdiv ((judge_day cx cs cd cdf comp miss w).new_xp) 250)
        1 10 ∧
    1 ≤ (judge_day cx cs cd cdf comp miss w).new_level ∧
    (judge_day cx cs cd cdf comp miss w).new_level ≤ 10 := by
  refine ⟨rfl, clamp_lower _ 1 5 (by omega), clamp_upper _ 1 5 (by omega),
    rfl, clamp_lower _ 1 10 (by omega), clamp_upper _ 1 10 (by omega)⟩

/-- Closed instance of C4 at a concrete input. -/
theorem judge_day_difficulty_level_witness :
    (judge_day 500 4 1 2 0 3 0).new_difficulty =
      clamp (if (3 : ℤ) ≥ 2 then 2 + 1
             else if streakAfter 4 0 3 ≥ 5 then 2 + 1
             else if (3 : ℤ) = 0 ∧ (0 : ℤ) ≥ 4 then 2 + 1
             else 2) 1 5 ∧
    1 ≤ (judge_day 500 4 1 2 0 3 0).new_difficulty ∧
    (judge_day 500 4 1 2 0 3 0).new_difficulty ≤ 5 ∧
    (judge_day 500 4 1 2 0 3 0).new_level =
      clamp (1 + Int.fdiv ((judge_day 500 4 1 2 0 3 0).new_xp) 250) 1 10 ∧
    1 ≤ (judge_day 500 4 1 2 0 3 0).new_level ∧
    (judge_day 500 4 1 2 0 3 0).new_level ≤ 10 :=
  judge_day_difficulty_level 500 4 1 2 0 3 0 (by decide) (by decide)
    (by decide) (by decide) (by decide) (by decide) (by norm_num)

/-- C5: the new streak is `current_streak + 1` exactly when `missed = 0` and
`completed > 0`, and `0` in every other case. -/
theorem judge_day_streak (cx cs cd cdf comp miss : ℤ) (w : ℚ) :
    (judge_day cx cs cd cdf comp miss w).new_streak =
      if miss = 0 ∧ comp > 0 then cs + 1 else 0 := rfl

/-- C6: `new_debt = current_debt + missed`, hence with `missed ≥ 0` the debt
never decreases. -/
theorem judge_day_debt (cx cs cd cdf comp miss : ℤ) (w : ℚ) (hm : 0 ≤ miss) :
    (judge_day cx cs cd cdf comp miss w).new_debt = cd + miss ∧
    cd ≤ (judge_day cx cs cd cdf comp miss w).new_debt := by
  refine ⟨rfl, ?_⟩
  have h : (judge_day cx cs cd cdf comp miss w).new_debt = cd + miss := rfl
  omega

/-- Closed instance of C6 at a concrete input. -/
theorem judge_day_debt_witness :
    (judge_day 10 1 7 3 2 1 1).new_debt = 7 + 1 ∧
    7 ≤ (judge_day 10 1 7 3 2 1 1).new_debt :=
  judge_day_debt 10 1 7 3 2 1 1 (by decide)

/-- C10: starting from a difficulty in [1,5], the new difficulty is at least
the current one and exceeds it by at most 1. -/
theorem judge_day_difficulty_monotone (cx cs cd cdf comp miss : ℤ) (w : ℚ)
    (hd1 : 1 ≤ cdf) (hd2 : cdf ≤ 5) :
    cdf ≤ (judge_day cx cs cd cdf comp miss w).new_difficulty ∧
    (judge_day cx cs cd cdf comp miss w).new_difficulty ≤ cdf + 1 := by
  have h : (judge_day cx cs cd cdf comp miss w).new_difficulty =
      clamp (if miss ≥ 2 then cdf + 1
             else if streakAfter cs comp miss ≥ 5 then cdf + 1
             else if miss = 0 ∧ comp ≥ 4 then cdf + 1
             else cdf) 1 5 := rfl
  rw [h]
  split_ifs <;> simp only [clamp] <;> omega

/-- Closed instance of C10 at a concrete input. -/
theorem judge_day_difficulty_monotone_witness :
    (5 : ℤ) ≤ (judge_day 0 0 0 5 0 3 0).new_difficulty ∧
    (judge_day 0 0 0 5 0 3 0).new_difficulty ≤ 5 + 1 :=
  judge_day_difficulty_monotone 0 0 0 5 0 3 0 (by decide) (by decide)

/-!
The action heuristic generator is embedded from `_offline_actions` in
`src/_legacy/backend/ai.py`.  Python's substring test `k in lower` is
`containsSub`, `str.lower()` is `String.toLower`, `str.strip()` is
`String.trim`, and the float impact weights are exact rationals.
-/

/-- Substring membership on character lists: Python's `needle in hay`. -/
def containsSub (needle : List Char) : List Char → Bool
  | [] => needle.isEmpty
  | c :: t => needle.isPrefixOf (c :: t) || containsSub needle t

/-- Python's `str.lower()` on the character list (ASCII case mapping). -/
def lowerChars (l : List Char) : List Char := l.map Char.toLower

/-- Whitespace as recognised by Python's `str.strip()`. -/
def isPySpace (c : Char) : Bool :=
  c == ' ' || c == '\t' || c == '\n' || c == '\r' || c == '\x0b' || c == '\x0c'

/-- Python's `str.strip()` on the character list. -/
def trimChars (l : List Char) : List Char :=
  ((l.dropWhile isPySpace).reverse.dropWhile isPySpace).reverse

/-- True when any keyword of `ks` occurs as a substring of `lower`. -/
def containsAny (lower : List Char) (ks : List String) : Bool :=
  ks.any fun k => containsSub k.toList lower

def revenueKeywords : List String :=
  ["mrr", "sales", "customers", "customer", "revenue", "sell", "pipeline"]

def buildKeywords : List String :=
  ["product", "mvp", "app", "build", "launch", "ship"]

/-- An action proposal dict produced by `_offline_actions` / cleaned from the
external response in `generate_actions`. -/
structure ActionProposal where
  text : String
  impact_weight : ℚ
  difficulty : ℤ
  non_negotiable : Bool
deriving Repr, DecidableEq

/-- The `add` helper inside `_offline_actions`: `non_negotiable` is always
true. -/
def mkAction (text : String) (w : ℚ) (d : ℤ) : ActionProposal :=
  ⟨text, w, d, true⟩

/-- The revenue/sales template of `_offline_actions`. -/
def revenueTemplate (difficulty : ℤ) : List ActionProposal :=
  [mkAction "Contact 10 prospects (DM/email) with ONE offer. Log replies."
      1.4 (min 3 (difficulty + 1)),
   mkAction "Improve the offer (headline + price + guarantee). Publish it."
      1.2 difficulty,
   mkAction "Book 1 short sales call (15 min). No research-avoidance."
      1.5 (min 3 (difficulty + 1)),
   mkAction "Ask for money: send 1 invoice/checkout link or request a deposit."
      1.5 3]

/-- The build/ship template of `_offline_actions`. -/
def buildTemplate (difficulty : ℤ) : List ActionProposal :=
  [mkAction "Set a deadline: ship 1 concrete feature today. No side quests."
      1.3 difficulty,
   mkAction "Cut 1 feature you \x27want\x27 but don\x27t need. Commit the change."
      1.2 difficulty,
   mkAction "Post a public update (X/LinkedIn) showing what you shipped."
      1.1 difficulty,
   mkAction "Get 3 people to test and give feedback. Collect responses."
      1.4 (min 3 (difficulty + 1))]

/-- The generic/default template of `_offline_actions`. -/
def genericTemplate (difficulty : ℤ) : List ActionProposal :=
  [mkAction "Write today\x27s 3 deliverables in 1 sentence each. No fluff."
      1.0 difficulty,
   mkAction "Do the most uncomfortable task first. 45-minute timer. No distractions."
      1.4 (min 3 (difficulty + 1)),
   mkAction "Remove 1 blocker by contacting a human (not Googling)."
      1.3 (min 3 (difficulty + 1)),
   mkAction "Ship something visible: post/commit/demo. Proof > intention."
      1.2 difficulty]

/-- The catch-all action appended when fewer than 3 actions were produced. -/
def catchAllAction (difficulty : ℤ) : ActionProposal :=
  ⟨"Ship a result you can show publicly.", 1.2, difficulty, true⟩

/-- Embeds `_offline_actions` from `src/_legacy/backend/ai.py`: classify the
stripped, lowercased goal (revenue keywords first, then build keywords, else
generic), truncate to 5, and append the catch-all once if fewer than 3. -/
def offlineActions (goal_text : String) (difficulty : ℤ) : List ActionProposal :=
  let lower := lowerChars (trimChars goal_text.toList)
  let actions :=
    if containsAny lower revenueKeywords then revenueTemplate difficulty
    else if containsAny lower buildKeywords then buildTemplate difficulty
    else genericTemplate difficulty
  let actions := actions.take 5
  if actions.length < 3 then actions ++ [catchAllAction difficulty] else actions

/-- Decidable form of "every proposed action has difficulty at most 3". -/
def allDiffAtMost3 (l : List ActionProposal) : Bool :=
  l.all fun a => decide (a.difficulty ≤ 3)

/-- C2 counterexample: at input difficulty 4 (allowed by the claim's [1,5]
range) the generic template keeps the input difficulty on two actions, so a
proposal with difficulty 4 > 3 is returned. -/
theorem offline_actions_difficulty_counterexample :
    allDiffAtMost3 (offlineActions "" 4) = false := by decide

/-- C2 amended: for input difficulty in [1,3] every proposal's difficulty is
at most 3 (escalating actions are capped at 3, the rest keep the input). -/
theorem offline_actions_difficulty_cap (goal : String) (d : ℤ)
    (h1 : 1 ≤ d) (h2 : d ≤ 3) :
    allDiffAtMost3 (offlineActions goal d) = true := by
  simp only [offlineActions, allDiffAtMost3]
  split_ifs <;>
    simp [revenueTemplate, buildTemplate, genericTemplate, mkAction,
      catchAllAction, List.take, List.all] <;>
    omega

/-- Closed instance of the amended C2 at a concrete input. -/
theorem offline_actions_difficulty_cap_witness :
    (1 : ℤ) ≤ 3 ∧ (3 : ℤ) ≤ 3 ∧
    allDiffAtMost3 (offlineActions "get customers" 3) = true :=
  ⟨by decide, by decide,
    offline_actions_difficulty_cap "get customers" 3 (by decide) (by decide)⟩

/-- C8: the classifier tests the revenue keywords before the build keywords,
so any goal matching the revenue set (in particular one matching both sets)
gets the revenue template; a goal matching neither set — including empty or
whitespace-only text — gets the generic template. -/
theorem offline_actions_classification (goal : String) (d : ℤ) :
    (containsAny (lowerChars (trimChars goal.toList)) revenueKeywords = true →
      offlineActions goal d = revenueTemplate d) ∧
    (containsAny (lowerChars (trimChars goal.toList)) revenueKeywords = false →
      containsAny (lowerChars (trimChars goal.toList)) buildKeywords = false →
      offlineActions goal d = genericTemplate d) ∧
    (trimChars goal.toList = [] → offlineActions goal d = genericTemplate d) := by
  refine ⟨?_, ?_, ?_⟩
  · intro hr
    simp only [String.toList] at hr
    simp [offlineActions, String.toList, hr, revenueTemplate, mkAction]
  · intro hr hb
    simp only [String.toList] at hr hb
    simp [offlineActions, String.toList, hr, hb, genericTemplate, mkAction]
  · intro h
    have hl : lowerChars (trimChars goal.toList) = [] := by
      rw [h]; rfl
    simp only [String.toList] at hl
    simp [offlineActions, String.toList, hl, genericTemplate, mkAction,
      containsAny, containsSub, revenueKeywords, buildKeywords]

/-- Closed instance of C8: a goal matching both keyword sets is classified as
revenue, and a whitespace-only goal falls to the generic template. -/
theorem offline_actions_classification_witness :
    containsAny (lowerChars (trimChars "sell the mvp".toList)) revenueKeywords
      = true ∧
    containsAny (lowerChars (trimChars "sell the mvp".toList)) buildKeywords
      = true ∧
    offlineActions "sell the mvp" 2 = revenueTemplate 2 ∧
    trimChars "   ".toList = [] ∧
    offlineActions "   " 1 = genericTemplate 1 :=
  ⟨by decide, by decide,
    (offline_actions_classification "sell the mvp" 2).1 (by decide),
    by decide,
    (offline_actions_classification "   " 1).2.2 (by decide)⟩

/-!
The `/generate_today` route of `src/_legacy/backend/main.py` is embedded over
an explicit actions table (a list of rows in rowid order).  The generated
proposals that would be inserted on the fresh-day path are passed in as a
parameter, abstracting the `generate_actions` call; row ids and timestamps
carry no logic and are omitted.
-/

/-- A row of the `actions` table as inserted by `generate_today`
(`src/_legacy/backend/main.py`): `non_negotiable = 1`, `completed = NULL`. -/
structure StoredAction where
  user_id : String
  date : String
  text : String
  impact_weight : ℚ
  difficulty : ℤ
  non_negotiable : Bool
  completed : Option Bool
deriving Repr, DecidableEq

/-- The query `SELECT * FROM actions WHERE user_id=? AND date=? ORDER BY
rowid`: rows are kept in insertion order, so a filter suffices. -/
def list_actions_for (tbl : List StoredAction) (uid day : String) :
    List StoredAction :=
  tbl.filter fun a => a.user_id == uid && a.date == day

/-- The `INSERT INTO actions` values built from one generated proposal. -/
def storeProposal (uid day : String) (p : ActionProposal) : StoredAction :=
  ⟨uid, day, p.text, p.impact_weight, p.difficulty, true, none⟩

/-- Embeds the `generate_today` route of `src/_legacy/backend/main.py`: if
actions already exist for `(uid, day)` they are returned and the table is
untouched; otherwise the generated proposals are inserted and the freshly
selected rows are returned.  Returns (response rows, new table). -/
def generate_today (tbl : List StoredAction) (uid day : String)
    (generated : List ActionProposal) :
    List StoredAction × List StoredAction :=
  let existing := list_actions_for tbl uid day
  if existing.isEmpty then
    let tbl2 := tbl ++ generated.map (storeProposal uid day)
    (list_actions_for tbl2 uid day, tbl2)
  else (existing, tbl)

/-- C7: when actions already exist for a `(user, day)`, a second generation
request returns exactly the existing actions and leaves the table unchanged
(no re-roll). -/
theorem generate_today_no_reroll (tbl : List StoredAction) (uid day : String)
    (gen : List ActionProposal) (h : list_actions_for tbl uid day ≠ []) :
    generate_today tbl uid day gen = (list_actions_for tbl uid day, tbl) := by
  have hne : (list_actions_for tbl uid day).isEmpty = false := by
    cases hx : list_actions_for tbl uid day with
    | nil => exact absurd hx h
    | cons a t => rfl
  simp [generate_today, hne]

/-- Closed instance of C7: a table already holding a row for the day. -/
theorem generate_today_no_reroll_witness :
    list_actions_for [⟨"u", "2024-01-01", "t", 1, 2, true, none⟩]
      "u" "2024-01-01" ≠ [] ∧
    generate_today [⟨"u", "2024-01-01", "t", 1, 2, true, none⟩]
      "u" "2024-01-01" [catchAllAction 1] =
      (list_actions_for [⟨"u", "2024-01-01", "t", 1, 2, true, none⟩]
        "u" "2024-01-01",
       [⟨"u", "2024-01-01", "t", 1, 2, true, none⟩]) :=
  ⟨by decide,
    generate_today_no_reroll [⟨"u", "2024-01-01", "t", 1, 2, true, none⟩]
      "u" "2024-01-01" [catchAllAction 1] (by decide)⟩

/-!
`generate_actions` from `src/_legacy/backend/ai.py` is embedded with the
outcome of the external HTTP + parsing pipeline abstracted as an
`ExternalOutcome` parameter: the missing API key, any raised exception
(network error, non-success status, JSON decode failure), a response text
with no bracketed JSON array, or a successfully parsed array of raw items.
-/

/-- A raw item of the parsed external JSON array; `none` fields stand for
missing keys, filled with the defaults `""`, `1.0`, `2` during cleaning. -/
structure RawItem where
  text : Option String
  impact_weight : Option ℚ
  difficulty : Option ℤ
deriving Repr, DecidableEq

/-- Outcome of the external generation attempt in `generate_actions`. -/
inductive ExternalOutcome where
  | noApiKey
  | requestFailed
  | noJsonArray
  | parsedArray (items : List RawItem)
deriving Repr, DecidableEq

/-- Cleaning of one raw item in `generate_actions`: text stripped and cut to
300 characters, defaults applied, `non_negotiable` forced to true. -/
def cleanItem (a : RawItem) : ActionProposal :=
  ⟨String.mk ((trimChars (a.text.getD "").toList).take 300),
    a.impact_weight.getD 1.0, a.difficulty.getD 2, true⟩

/-- Embeds `generate_actions` from `src/_legacy/backend/ai.py`: with no API
key, on any exception, or with no parsable array it falls back to
`_offline_actions`; a parsed array is cleaned, truncated to 5, and also
falls back when fewer than 3 items remain. -/
def generate_actions (goal_text : String) (difficulty : ℤ) (hist : String)
    (ext : ExternalOutcome) : List ActionProposal :=
  match ext with
  | .noApiKey => offlineActions goal_text difficulty
  | .requestFailed => offlineActions goal_text difficulty
  | .noJsonArray => offlineActions goal_text difficulty
  | .parsedArray items =>
      let cleaned := (items.map cleanItem).take 5
      if cleaned.length < 3 then offlineActions goal_text difficulty
      else cleaned

/-- True on every failing outcome of the external path: no key, a raised
exception, no JSON array found, or fewer than 3 usable items. -/
def isGenerationFailure (ext : ExternalOutcome) : Bool :=
  match ext with
  | .parsedArray items => decide (((items.map cleanItem).take 5).length < 3)
  | _ => true

/-- C9: on every failure of the external generation path, `generate_actions`
returns exactly the heuristic generator's output for the same goal text and
difficulty; in particular it does so when no API key is configured. -/
theorem generate_actions_fallback (goal : String) (d : ℤ) (hist : String)
    (ext : ExternalOutcome) (hfail : isGenerationFailure ext = true) :
    generate_actions goal d hist ext = offlineActions goal d ∧
    generate_actions goal d hist .noApiKey = offlineActions goal d := by
  refine ⟨?_, rfl⟩
  cases ext with
  | noApiKey => rfl
  | requestFailed => rfl
  | noJsonArray => rfl
  | parsedArray items =>
      simp only [isGenerationFailure, decide_eq_true_eq] at hfail
      simp only [generate_actions]
      rw [if_pos hfail]

/-- Closed instance of C9: a parsed array of only two usable items falls
back to the heuristic generator. -/
theorem generate_actions_fallback_witness :
    isGenerationFailure (.parsedArray [⟨some "a", none, none⟩]) = true ∧
    generate_actions "grow mrr" 2 ""
      (.parsedArray [⟨some "a", none, none⟩]) = offlineActions "grow mrr" 2 :=
  ⟨rfl,
    (generate_actions_fallback "grow mrr" 2 ""
      (.parsedArray [⟨some "a", none, none⟩]) rfl).1⟩

end FounderEngine
